import Mathlib

/-!
# Verification of the NEP-141 / NEP-171 transfer-and-settle core

Shallow embedding of the fungible-token ledger operations of
`src/standard/nep141/mod.rs` and of the non-fungible-token entry points
generated by `macros/src/standard/nep171.rs`, together with proofs and
refutations of the specification's claims about them.

Machine integers (`u128`) are modelled as `Nat` with explicit bound
checks against `u128Max`, mirroring Rust's `checked_add` / `checked_sub`.
Storage slots (`Slot<u128>` keyed by account) are modelled as an
association list with a read that defaults to `0` for absent keys, exactly
like `slot.read().unwrap_or(0)` in the source.
-/

namespace Nep141

/-- Account identifiers (`near_sdk::AccountId`), modelled as strings. -/
abbrev AccountId := String

/-- Maximum value of a `u128`. -/
def u128Max : Nat := 2 ^ 128 - 1

/-- `u128::checked_add`: `some (a + b)` unless the sum exceeds `u128::MAX`. -/
def checkedAdd (a b : Nat) : Option Nat :=
  if a + b ≤ u128Max then some (a + b) else none

/-- `u128::checked_sub`: `some (a - b)` unless the subtraction would go negative. -/
def checkedSub (a b : Nat) : Option Nat :=
  if b ≤ a then some (a - b) else none

/-- The fungible-token ledger: the sparse account-balance store
(`StorageKey::Account(_)` slots) and the total-supply slot
(`StorageKey::TotalSupply`). An absent balance entry reads as `0`. -/
structure FtState where
  balances : List (AccountId × Nat)
  totalSupply : Nat
  deriving Repr, DecidableEq

/-- Read of an account's balance slot: first matching entry, default `0`
(`slot_account(account_id).read().unwrap_or(0)`). -/
def lookupBalance : List (AccountId × Nat) → AccountId → Nat
  | [], _ => 0
  | (b, v) :: rest, a => if b = a then v else lookupBalance rest a

/-- Write of an account's balance slot: overwrite the existing entry or
create a fresh one (`slot_account(account_id).write(&balance)`). -/
def writeBalance : List (AccountId × Nat) → AccountId → Nat → List (AccountId × Nat)
  | [], a, v => [(a, v)]
  | (b, w) :: rest, a, v =>
    if b = a then (a, v) :: rest else (b, w) :: writeBalance rest a v

/-- `Nep141Controller::balance_of`. -/
def balance_of (s : FtState) (accountId : AccountId) : Nat :=
  lookupBalance s.balances accountId

/-- `Nep141Controller::total_supply`. -/
def total_supply (s : FtState) : Nat :=
  s.totalSupply

/-- Sum of all account-balance entries of the ledger. -/
def sumBalances (s : FtState) : Nat :=
  (s.balances.map Prod.snd).sum

/-- `WithdrawError` (from the nep141 error module): either the account
balance or the total supply would underflow. -/
inductive WithdrawError where
  | balanceUnderflow (accountId : AccountId) (balance amount : Nat)
  | totalSupplyUnderflow (totalSupply amount : Nat)
  deriving Repr, DecidableEq

/-- `DepositError`: either the account balance or the total supply would
overflow `u128::MAX`. -/
inductive DepositError where
  | balanceOverflow (accountId : AccountId) (balance amount : Nat)
  | totalSupplyOverflow (totalSupply amount : Nat)
  deriving Repr, DecidableEq

/-- `TransferError`: the sender balance would underflow or the receiver
balance would overflow. -/
inductive TransferError where
  | balanceOverflow (accountId : AccountId) (balance amount : Nat)
  | balanceUnderflow (accountId : AccountId) (balance amount : Nat)
  deriving Repr, DecidableEq

/-- `Nep141Controller::withdraw_unchecked` (nep141/mod.rs lines 170-201).
Rust mutates `self` in place and returns `Result<(), WithdrawError>`;
here the function returns the (possibly partially updated) state together
with the result. Note the source order: the balance slot is written
*before* the total-supply check runs. -/
def withdraw_unchecked (s : FtState) (accountId : AccountId) (amount : Nat) :
    FtState × Except WithdrawError Unit :=
  if amount ≠ 0 then
    let balance := balance_of s accountId
    match checkedSub balance amount with
    | some newBalance =>
      let s1 : FtState := { s with balances := writeBalance s.balances accountId newBalance }
      let totalSupply := total_supply s1
      match checkedSub totalSupply amount with
      | some newTotal => ({ s1 with totalSupply := newTotal }, .ok ())
      | none => (s1, .error (.totalSupplyUnderflow totalSupply amount))
    | none => (s, .error (.balanceUnderflow accountId balance amount))
  else (s, .ok ())

/-- `Nep141Controller::deposit_unchecked` (nep141/mod.rs lines 203-234).
Same write-then-check-total order as `withdraw_unchecked`. -/
def deposit_unchecked (s : FtState) (accountId : AccountId) (amount : Nat) :
    FtState × Except DepositError Unit :=
  if amount ≠ 0 then
    let balance := balance_of s accountId
    match checkedAdd balance amount with
    | some newBalance =>
      let s1 : FtState := { s with balances := writeBalance s.balances accountId newBalance }
      let totalSupply := total_supply s1
      match checkedAdd totalSupply amount with
      | some newTotal => ({ s1 with totalSupply := newTotal }, .ok ())
      | none => (s1, .error (.totalSupplyOverflow totalSupply amount))
    | none => (s, .error (.balanceOverflow accountId balance amount))
  else (s, .ok ())

/-- `Nep141Controller::transfer_unchecked` (nep141/mod.rs lines 236-267).
Both balances are read and both bound checks run before either slot is
written; the receiver balance is read *before* the sender slot is written. -/
def transfer_unchecked (s : FtState) (senderAccountId receiverAccountId : AccountId)
    (amount : Nat) : FtState × Except TransferError Unit :=
  let senderBalance := balance_of s senderAccountId
  match checkedSub senderBalance amount with
  | some newSenderBalance =>
    let receiverBalance := balance_of s receiverAccountId
    match checkedAdd receiverBalance amount with
    | some newReceiverBalance =>
      let s1 : FtState := { s with
        balances := writeBalance s.balances senderAccountId newSenderBalance }
      let s2 : FtState := { s1 with
        balances := writeBalance s1.balances receiverAccountId newReceiverBalance }
      (s2, .ok ())
    | none => (s, .error (.balanceOverflow receiverAccountId receiverBalance amount))
  | none => (s, .error (.balanceUnderflow senderAccountId senderBalance amount))

/-- `Nep141Transfer`: transfer descriptor for `ft_transfer` / `ft_transfer_call`. -/
structure Nep141Transfer where
  senderId : AccountId
  receiverId : AccountId
  amount : Nat
  memo : Option String
  msg : Option String
  revert : Bool
  deriving Repr, DecidableEq

/-- NEP-297 events emitted by the fungible-token controller. -/
inductive FtEvent where
  | ftTransfer (oldOwnerId newOwnerId : AccountId) (amount : Nat) (memo : Option String)
  | ftMint (ownerId : AccountId) (amount : Nat) (memo : Option String)
  | ftBurn (ownerId : AccountId) (amount : Nat) (memo : Option String)
  deriving Repr, DecidableEq

/-- The `Nep141Hook` lifecycle-hook interface. Hooks receive `&mut self`,
so a hook body may read and write the whole contract state; the value
produced by a `before` hook is threaded into the matching `after` hook. -/
structure FtHook (HS : Type) where
  beforeTransfer : FtState → Nep141Transfer → FtState × HS
  afterTransfer : FtState → Nep141Transfer → HS → FtState
  beforeMint : FtState → Nat → AccountId → FtState × HS
  afterMint : FtState → Nat → AccountId → HS → FtState
  beforeBurn : FtState → Nat → AccountId → FtState × HS
  afterBurn : FtState → Nat → AccountId → HS → FtState

/-- The hook implementation whose methods do nothing, as in the test
contracts with empty hook bodies. -/
def trivialFtHook : FtHook Unit where
  beforeTransfer := fun s _ => (s, ())
  afterTransfer := fun s _ _ => s
  beforeMint := fun s _ _ => (s, ())
  afterMint := fun s _ _ _ => s
  beforeBurn := fun s _ _ => (s, ())
  afterBurn := fun s _ _ _ => s

/-- `Nep141Controller::transfer` (nep141/mod.rs lines 269-285): before
hook, `transfer_unchecked` (propagating its error with `?`), event
emission, after hook. The emitted events are returned alongside the state. -/
def transfer {HS : Type} (hook : FtHook HS) (s : FtState) (t : Nep141Transfer) :
    FtState × List FtEvent × Except TransferError Unit :=
  let pre := hook.beforeTransfer s t
  let r := transfer_unchecked pre.1 t.senderId t.receiverId t.amount
  match r.2 with
  | .error e => (r.1, [], .error e)
  | .ok () =>
    let ev := FtEvent.ftTransfer t.senderId t.receiverId t.amount t.memo
    let s3 := hook.afterTransfer r.1 t pre.2
    (s3, [ev], .ok ())

/-- `Nep141Controller::mint` (nep141/mod.rs lines 287-307): before hook,
`deposit_unchecked`, after hook, event emission. -/
def mint {HS : Type} (hook : FtHook HS) (s : FtState) (accountId : AccountId)
    (amount : Nat) (memo : Option String) :
    FtState × List FtEvent × Except DepositError Unit :=
  let pre := hook.beforeMint s amount accountId
  let r := deposit_unchecked pre.1 accountId amount
  match r.2 with
  | .error e => (r.1, [], .error e)
  | .ok () =>
    let s3 := hook.afterMint r.1 amount accountId pre.2
    (s3, [FtEvent.ftMint accountId amount memo], .ok ())

/-- `Nep141Controller::burn` (nep141/mod.rs lines 309-329): before hook,
`withdraw_unchecked`, after hook, event emission. -/
def burn {HS : Type} (hook : FtHook HS) (s : FtState) (accountId : AccountId)
    (amount : Nat) (memo : Option String) :
    FtState × List FtEvent × Except WithdrawError Unit :=
  let pre := hook.beforeBurn s amount accountId
  let r := withdraw_unchecked pre.1 accountId amount
  match r.2 with
  | .error e => (r.1, [], .error e)
  | .ok () =>
    let s3 := hook.afterBurn r.1 amount accountId pre.2
    (s3, [FtEvent.ftBurn accountId amount memo], .ok ())

/-- Modelled from the spec: the macro-generated `ft_transfer` entry point
is not under `src/`; per §4.2/§7 it aborts the whole call on a
`TransferError` (`env::panic_str`), and the host then reverts every state
write made during the call, so neither hook writes nor events survive a
failed transfer. The `Bool` reports whether the call committed. -/
def ftTransferEntry {HS : Type} (hook : FtHook HS) (s : FtState) (t : Nep141Transfer) :
    FtState × List FtEvent × Bool :=
  let r := transfer hook s t
  match r.2.2 with
  | .ok () => (r.1, r.2.1, true)
  | .error _ => (s, [], false)

end Nep141

namespace Nep171

/-- Token identifiers (`TokenId`), modelled as strings. -/
abbrev TokenId := String

/-- Account identifiers, as in the fungible model. -/
abbrev AccountId := String

/-- The non-fungible ledger: token id → owning account, single owner per
token, absent key = token does not exist. -/
structure NftState where
  tokens : List (TokenId × AccountId)
  deriving Repr, DecidableEq

/-- Owner lookup: `none` when the token does not exist. -/
def lookupOwner : List (TokenId × AccountId) → TokenId → Option AccountId
  | [], _ => none
  | (t, o) :: rest, tid => if t = tid then some o else lookupOwner rest tid

/-- Modelled from the spec: `Nep171Controller::token_owner` (the nep171
controller module is not under `src/`); §4.1 `owner_of(token) -> optional
account`, sparse read. -/
def token_owner (s : NftState) (tokenId : TokenId) : Option AccountId :=
  lookupOwner s.tokens tokenId

/-- Ownership reassignment: overwrite (or create) the entry for one token. -/
def writeOwner : List (TokenId × AccountId) → TokenId → AccountId → List (TokenId × AccountId)
  | [], tid, o => [(tid, o)]
  | (t, w) :: rest, tid, o =>
    if t = tid then (tid, o) :: rest else (t, w) :: writeOwner rest tid o

/-- Non-fungible transfer errors of the ownership variant (§4.2): the
token does not exist, or it is not owned by the stated previous owner. -/
inductive NftTransferError where
  | tokenNotFound (tokenId : TokenId)
  | senderIsNotOwner (tokenId : TokenId) (sender : AccountId)
  deriving Repr, DecidableEq

/-- `Nep171Transfer`: the transfer descriptor constructed by the generated
entry points (token id, asserted current owner, sender, receiver,
approval id, memo, message). -/
structure Nep171Transfer where
  tokenId : TokenId
  ownerId : AccountId
  senderId : AccountId
  receiverId : AccountId
  approvalId : Option Nat
  memo : Option String
  msg : Option String
  deriving Repr, DecidableEq

/-- NEP-297 transfer events emitted on committed ownership mutations. -/
inductive NftEvent where
  | nftTransfer (oldOwnerId newOwnerId : AccountId) (tokenId : TokenId) (memo : Option String)
  deriving Repr, DecidableEq

/-- The `Nep171Hook` lifecycle-hook interface as invoked by the generated
code: `before_nft_transfer(&self, &transfer)` takes the state immutably
and produces the carried hook state; `after_nft_transfer(self, &transfer,
hook_state)` may mutate the state. -/
structure NftHook (HS : Type) where
  beforeNftTransfer : NftState → Nep171Transfer → HS
  afterNftTransfer : NftState → Nep171Transfer → HS → NftState

/-- The hook implementation whose methods do nothing. -/
def trivialNftHook : NftHook Unit where
  beforeNftTransfer := fun _ _ => ()
  afterNftTransfer := fun s _ _ => s

/-- Modelled from the spec: `Nep171Controller::check_transfer` (controller
module not under `src/`); §4.2 — verify, before reassigning, that each
token exists (else `TokenNotFound`) and is currently owned by the stated
previous owner (else `SenderIsNotOwner`). Arguments mirror the call sites:
token ids, asserted current owner, sender, receiver. -/
def check_transfer (s : NftState) (tokenIds : List TokenId)
    (currentOwnerId senderId receiverId : AccountId) : Except NftTransferError Unit :=
  match tokenIds with
  | [] => .ok ()
  | tid :: rest =>
    match token_owner s tid with
    | none => .error (.tokenNotFound tid)
    | some actualOwner =>
      if actualOwner = currentOwnerId ∧ actualOwner = senderId then
        check_transfer s rest currentOwnerId senderId receiverId
      else .error (.senderIsNotOwner tid senderId)

/-- Modelled from the spec: `Nep171Controller::transfer_unchecked`
(controller module not under `src/`); §4.2/§4.4 — a pure map update
reassigning each token to the receiver (no supply counter) that emits a
structured transfer event for the move. -/
def transfer_unchecked (s : NftState) (tokenIds : List TokenId)
    (currentOwnerId senderId receiverId : AccountId) (memo : Option String) :
    NftState × List NftEvent :=
  match tokenIds with
  | [] => (s, [])
  | tid :: rest =>
    let s1 : NftState := { s with tokens := writeOwner s.tokens tid receiverId }
    let r := transfer_unchecked s1 rest currentOwnerId senderId receiverId memo
    (r.1, NftEvent.nftTransfer currentOwnerId receiverId tid memo :: r.2)

/-- Modelled from the spec: `Nep171Controller::transfer` (controller
module not under `src/`); §4.2 — validate with `check_transfer`, then
reassign ownership and emit the transfer event; fails atomically. -/
def controller_transfer (s : NftState) (tokenIds : List TokenId)
    (currentOwnerId senderId receiverId : AccountId) (memo : Option String) :
    NftState × List NftEvent × Except NftTransferError Unit :=
  match check_transfer s tokenIds currentOwnerId senderId receiverId with
  | .error e => (s, [], .error e)
  | .ok () =>
    let r := transfer_unchecked s tokenIds currentOwnerId senderId receiverId memo
    (r.1, r.2, .ok ())

/-- Modelled from the spec: JSON boolean deserialization
(`serde_json::from_slice::<bool>`) of the receiver's raw return value —
`some` only on the two boolean literals, `none` on anything that fails to
parse as the expected result type. -/
def jsonParseBool (value : String) : Option Bool :=
  if value = "true" then some true
  else if value = "false" then some false
  else none

/-- Outcome of the receiver's promise as seen by the resolver
(`near_sdk::PromiseResult`): completed with a raw return value, or failed
(panicked / not executed). -/
inductive PromiseResult where
  | successful (value : String)
  | failed
  deriving Repr, DecidableEq

/-- Host environment visible to the generated entry points. -/
structure NftEnv where
  promiseResultsCount : Nat
  promiseResult : PromiseResult
  prepaidGas : Nat
  attachedDeposit : Nat
  predecessorAccountId : AccountId
  deriving Repr, DecidableEq

/-- Gas reserved for the resolver call. Modelled from the spec (§4.3,
§6): the nep171 constants are not under `src/`; mirrors the nep141
`GAS_FOR_RESOLVE_TRANSFER` in `src/standard/nep141/mod.rs`. -/
def GAS_FOR_RESOLVE_TRANSFER : Nat := 5000000000000

/-- Minimum budget for a transfer-call: receiver-call cost plus resolver
reservation. Modelled from the spec (§4.3, §6); mirrors the nep141
`GAS_FOR_FT_TRANSFER_CALL` in `src/standard/nep141/mod.rs`. -/
def GAS_FOR_NFT_TRANSFER_CALL : Nat := 25000000000000 + GAS_FOR_RESOLVE_TRANSFER

/-- Panic message of the budget check. Modelled from the spec (§4.3
`InsufficientBudget`); mirrors nep141's `MORE_GAS_FAIL_MESSAGE`. -/
def INSUFFICIENT_GAS_MESSAGE : String := "More gas is required"

/-- Panic message of approval-extension rejection in the generated code. -/
def APPROVAL_MANAGEMENT_NOT_SUPPORTED_MESSAGE : String :=
  "NEP-178: Approval Management is not supported"

/-- The generated `nft_resolve_transfer` entry point
(`macros/src/standard/nep171.rs` lines 82-147), hooks enabled: require
exactly one promise result (else abort), normalize the receiver outcome
to `should_revert`, and on revert re-validate with `check_transfer`
before running hooks and the compensating `transfer_unchecked`.
`Except.error` models a `require!` abort. -/
def nft_resolve_transfer {HS : Type} (hook : NftHook HS) (env : NftEnv) (s : NftState)
    (previousOwnerId receiverId : AccountId) (tokenId : TokenId) :
    Except String (NftState × List NftEvent × Bool) :=
  if env.promiseResultsCount ≠ 1 then
    .error "Requires exactly one promise result."
  else
    let shouldRevert :=
      match env.promiseResult with
      | .successful value => (jsonParseBool value).getD true
      | .failed => true
    if shouldRevert then
      match check_transfer s [tokenId] receiverId receiverId previousOwnerId with
      | .ok () =>
        let t : Nep171Transfer :=
          { tokenId := tokenId, ownerId := receiverId, senderId := receiverId,
            receiverId := previousOwnerId, approvalId := none, memo := none, msg := none }
        let hookState := hook.beforeNftTransfer s t
        let r := transfer_unchecked s [tokenId] receiverId receiverId previousOwnerId none
        let s2 := hook.afterNftTransfer r.1 t hookState
        .ok (s2, r.2, false)
      | .error _ => .ok (s, [], true)
    else .ok (s, [], true)

/-- The receiver call and chained resolver call scheduled by
`nft_transfer_call` (`macros/src/standard/nep171.rs` lines 251-264). -/
structure ScheduledCalls where
  receiverId : AccountId
  senderId : AccountId
  tokenId : TokenId
  msg : String
  receiverGas : Nat
  resolverGas : Nat
  deriving Repr, DecidableEq

/-- The generated `nft_transfer_call` entry point
(`macros/src/standard/nep171.rs` lines 199-265), hooks enabled: require
no approval id, exactly one attached yoctoNEAR, and prepaid gas at least
`GAS_FOR_NFT_TRANSFER_CALL` — all before the before-hook and the
optimistic `Nep171Controller::transfer` mutation — then schedule the
receiver notification chained into the resolver. `Except.error` models a
`require!` / `env::panic_str` abort. -/
def nft_transfer_call {HS : Type} (hook : NftHook HS) (env : NftEnv) (s : NftState)
    (receiverId : AccountId) (tokenId : TokenId) (approvalId : Option Nat)
    (memo : Option String) (msg : String) :
    Except String (NftState × List NftEvent × ScheduledCalls) :=
  if approvalId.isSome then .error APPROVAL_MANAGEMENT_NOT_SUPPORTED_MESSAGE
  else if env.attachedDeposit ≠ 1 then
    .error "Requires attached deposit of exactly 1 yoctoNEAR"
  else if ¬ GAS_FOR_NFT_TRANSFER_CALL ≤ env.prepaidGas then
    .error INSUFFICIENT_GAS_MESSAGE
  else
    let senderId := env.predecessorAccountId
    let t : Nep171Transfer :=
      { tokenId := tokenId, ownerId := senderId, senderId := senderId,
        receiverId := receiverId, approvalId := none, memo := memo, msg := some msg }
    let hookState := hook.beforeNftTransfer s t
    let r := controller_transfer s [tokenId] senderId senderId receiverId memo
    match r.2.2 with
    | .error e => .error (toString (repr e))
    | .ok () =>
      let s2 := hook.afterNftTransfer r.1 t hookState
      .ok (s2, r.2.1,
        { receiverId := receiverId, senderId := senderId, tokenId := tokenId,
          msg := msg, receiverGas := env.prepaidGas - GAS_FOR_NFT_TRANSFER_CALL,
          resolverGas := GAS_FOR_RESOLVE_TRANSFER })

/-- Observable ledger state after an entry-point invocation: an aborted
(`require!` / panicking) call leaves the pre-call state untouched — the
host reverts every write of the aborted call (§5, §7). -/
def resultState {β : Type} (s : NftState) (r : Except String (NftState × β)) : NftState :=
  match r with
  | .ok p => p.1
  | .error _ => s

end Nep171

namespace Nep141

/-- A hook implementation that records its invocation by writing a probe
balance entry in its before-transfer method, used to observe whether
before-hook writes survive a failed call. -/
def probeFtHook : FtHook Unit where
  beforeTransfer := fun s _ => ({ s with balances := writeBalance s.balances "probe" 99 }, ())
  afterTransfer := fun s _ _ => s
  beforeMint := fun s _ _ => (s, ())
  afterMint := fun s _ _ _ => s
  beforeBurn := fun s _ _ => (s, ())
  afterBurn := fun s _ _ _ => s

/-- A transfer descriptor whose balance move fails on the empty ledger
(sender balance `0` is below the amount `1`). -/
def failingFtTransfer : Nep141Transfer :=
  { senderId := "alice", receiverId := "bob", amount := 1,
    memo := none, msg := none, revert := false }

end Nep141

namespace Nep171

/-- Modelled from the spec: the ordinary hook-wrapped non-fungible
transfer, as generated in `nft_transfer` (macro lines 183-195): before
hook, `Nep171Controller::transfer`, after hook; fails atomically. -/
def nft_transfer_exec {HS : Type} (hook : NftHook HS) (s : NftState) (t : Nep171Transfer) :
    NftState × List NftEvent × Except NftTransferError Unit :=
  let hookState := hook.beforeNftTransfer s t
  let r := controller_transfer s [t.tokenId] t.ownerId t.senderId t.receiverId t.memo
  match r.2.2 with
  | .error e => (s, [], .error e)
  | .ok () => (hook.afterNftTransfer r.1 t hookState, r.2.1, .ok ())

/-- The compensating-transfer descriptor built by the generated
`nft_resolve_transfer` (macro lines 117-125): the receiver is both owner
and sender, the original owner is the destination. -/
def reversalDescriptor (previousOwnerId receiverId : AccountId) (tokenId : TokenId) :
    Nep171Transfer :=
  { tokenId := tokenId, ownerId := receiverId, senderId := receiverId,
    receiverId := previousOwnerId, approvalId := none, memo := none, msg := none }

/-- A host environment holding exactly one promise result, a failed
receiver call, ample gas, and one attached yoctoNEAR. -/
def envOneFailed : NftEnv :=
  { promiseResultsCount := 1, promiseResult := .failed,
    prepaidGas := 300000000000000, attachedDeposit := 1,
    predecessorAccountId := "alice" }

/-- A host environment holding no promise results. -/
def envZeroPromises : NftEnv :=
  { promiseResultsCount := 0, promiseResult := .failed,
    prepaidGas := 300000000000000, attachedDeposit := 1,
    predecessorAccountId := "alice" }

/-- A host environment whose prepaid gas is below the transfer-call
budget threshold. -/
def envLowGas : NftEnv :=
  { promiseResultsCount := 1, promiseResult := .failed,
    prepaidGas := 0, attachedDeposit := 1,
    predecessorAccountId := "alice" }

end Nep171

namespace Nep141

/-- C1: the claim says a successful self-transfer leaves the account's
balance unchanged. The source refutes it: `transfer_unchecked` reads the
receiver balance before writing the sender slot, so for
`sender == receiver` the final write stores `balance + amount`. With
balance 5, a self-transfer of 3 succeeds and leaves balance 8, not 5. -/
theorem self_transfer_inflates_balance :
    (transfer_unchecked ⟨[("alice", 5)], 5⟩ "alice" "alice" 3).2 = Except.ok () ∧
    balance_of (transfer_unchecked ⟨[("alice", 5)], 5⟩ "alice" "alice" 3).1 "alice" = 8 ∧
    balance_of (⟨[("alice", 5)], 5⟩ : FtState) "alice" = 5 :=
  ⟨rfl, rfl, rfl⟩

/-- C2: the claim says total supply equals the sum of balances after every
operation, `Ok` or error. Refuted from the empty ledger: `mint alice 5`
then the self-transfer `alice → alice` of 3 both return `Ok`, yet they
leave total supply 5 and balance sum 8. -/
theorem conservation_broken_by_self_transfer :
    (mint trivialFtHook ⟨[], 0⟩ "alice" 5 none).2.2 = Except.ok () ∧
    (transfer trivialFtHook (mint trivialFtHook ⟨[], 0⟩ "alice" 5 none).1
      { senderId := "alice", receiverId := "alice", amount := 3,
        memo := none, msg := none, revert := false }).2.2 = Except.ok () ∧
    total_supply (transfer trivialFtHook (mint trivialFtHook ⟨[], 0⟩ "alice" 5 none).1
      { senderId := "alice", receiverId := "alice", amount := 3,
        memo := none, msg := none, revert := false }).1 = 5 ∧
    sumBalances (transfer trivialFtHook (mint trivialFtHook ⟨[], 0⟩ "alice" 5 none).1
      { senderId := "alice", receiverId := "alice", amount := 3,
        memo := none, msg := none, revert := false }).1 = 8 :=
  ⟨rfl, rfl, rfl, rfl⟩

/-- C3: if `transfer_unchecked` returns an error, both the sender's and
the receiver's balances are unchanged: every error return happens before
either slot write (both bound checks precede both writes). -/
theorem transfer_unchecked_error_leaves_balances (s : FtState) (a b : AccountId)
    (n : Nat) (e : TransferError)
    (h : (transfer_unchecked s a b n).2 = Except.error e) :
    balance_of (transfer_unchecked s a b n).1 a = balance_of s a ∧
    balance_of (transfer_unchecked s a b n).1 b = balance_of s b := by
  cases h1 : checkedSub (balance_of s a) n with
  | none => constructor <;> simp [transfer_unchecked, h1]
  | some v =>
    cases h2 : checkedAdd (balance_of s b) n with
    | none => constructor <;> simp [transfer_unchecked, h1, h2]
    | some w => simp [transfer_unchecked, h1, h2] at h

/-- Witness for C3: on the empty ledger a transfer of 1 from `alice` to
`bob` fails with a balance underflow and changes neither balance. -/
theorem transfer_unchecked_error_leaves_balances_witness :
    (transfer_unchecked ⟨[], 0⟩ "alice" "bob" 1).2 =
      Except.error (TransferError.balanceUnderflow "alice" 0 1) ∧
    (balance_of (transfer_unchecked ⟨[], 0⟩ "alice" "bob" 1).1 "alice" =
      balance_of ⟨[], 0⟩ "alice" ∧
     balance_of (transfer_unchecked ⟨[], 0⟩ "alice" "bob" 1).1 "bob" =
      balance_of ⟨[], 0⟩ "bob") :=
  ⟨rfl, transfer_unchecked_error_leaves_balances ⟨[], 0⟩ "alice" "bob" 1
    (TransferError.balanceUnderflow "alice" 0 1) rfl⟩

/-- C4: the claim says an erroring `deposit_unchecked` leaves the whole
ledger unchanged. Refuted: the account slot is written before the
total-supply overflow check runs. After `deposit bob u128Max` (total
supply at the maximum), `deposit alice 1` returns `TotalSupplyOverflow`
yet leaves `alice`'s balance at 1 instead of 0. -/
theorem deposit_overflow_partial_mutation :
    (deposit_unchecked ⟨[], 0⟩ "bob" u128Max).2 = Except.ok () ∧
    (deposit_unchecked (deposit_unchecked ⟨[], 0⟩ "bob" u128Max).1 "alice" 1).2 =
      Except.error (DepositError.totalSupplyOverflow u128Max 1) ∧
    balance_of (deposit_unchecked ⟨[], 0⟩ "bob" u128Max).1 "alice" = 0 ∧
    balance_of (deposit_unchecked (deposit_unchecked ⟨[], 0⟩ "bob" u128Max).1 "alice" 1).1
      "alice" = 1 ∧
    total_supply (deposit_unchecked (deposit_unchecked ⟨[], 0⟩ "bob" u128Max).1 "alice" 1).1 =
      u128Max :=
  ⟨rfl, rfl, rfl, rfl, rfl⟩

/-- C5: if the underlying balance move of a fungible `transfer` fails,
the entry point commits nothing: the observable state equals the pre-call
state (before-hook writes are reverted), no event is emitted, and the
outcome is independent of the after-transfer hook (it never runs). -/
theorem ft_transfer_atomic_on_move_failure {HS : Type} (hook : FtHook HS)
    (s : FtState) (t : Nep141Transfer) (e : TransferError)
    (h : (transfer_unchecked (hook.beforeTransfer s t).1 t.senderId t.receiverId
      t.amount).2 = Except.error e) :
    ftTransferEntry hook s t = (s, [], false) ∧
    ∀ f : FtState → Nep141Transfer → HS → FtState,
      ftTransferEntry { hook with afterTransfer := f } s t = (s, [], false) := by
  constructor
  · simp [ftTransferEntry, transfer, h]
  · intro f
    simp [ftTransferEntry, transfer, h]

/-- Witness for C5: a hook whose before-transfer method writes a probe
entry, on a transfer whose move underflows — the call reports failure and
the observable state is exactly the pre-call empty ledger. -/
theorem ft_transfer_atomic_on_move_failure_witness :
    (transfer_unchecked (probeFtHook.beforeTransfer ⟨[], 0⟩ failingFtTransfer).1
      failingFtTransfer.senderId failingFtTransfer.receiverId
      failingFtTransfer.amount).2 =
      Except.error (TransferError.balanceUnderflow "alice" 0 1) ∧
    ftTransferEntry probeFtHook ⟨[], 0⟩ failingFtTransfer = (⟨[], 0⟩, [], false) :=
  ⟨rfl, (ft_transfer_atomic_on_move_failure probeFtHook ⟨[], 0⟩ failingFtTransfer
    (TransferError.balanceUnderflow "alice" 0 1) rfl).1⟩

end Nep141

namespace Nep171

/-- C6: an ambiguous receiver outcome is never an accept. If the
receiver's returned value does not parse as a boolean, or the receiver's
call failed outright, the generated resolver behaves exactly as if the
receiver had returned the explicit revert signal (`true`). -/
theorem resolver_ambiguous_treated_as_reject {HS : Type} (hook : NftHook HS)
    (env : NftEnv) (s : NftState) (p r : AccountId) (tid : TokenId) (v : String)
    (h : jsonParseBool v = none) :
    nft_resolve_transfer hook { env with promiseResult := .successful v } s p r tid =
      nft_resolve_transfer hook { env with promiseResult := .successful "true" } s p r tid ∧
    nft_resolve_transfer hook { env with promiseResult := .failed } s p r tid =
      nft_resolve_transfer hook { env with promiseResult := .successful "true" } s p r tid := by
  have ht : jsonParseBool "true" = some true := rfl
  constructor <;> simp [nft_resolve_transfer, h, ht]

/-- Witness for C6: the unparseable receiver result `"maybe"` and a
failed receiver call both resolve exactly like the explicit revert
signal `"true"`. -/
theorem resolver_ambiguous_treated_as_reject_witness :
    jsonParseBool "maybe" = none ∧
    (nft_resolve_transfer trivialNftHook
        { envOneFailed with promiseResult := .successful "maybe" }
        ⟨[("tok", "recv")]⟩ "prev" "recv" "tok" =
      nft_resolve_transfer trivialNftHook
        { envOneFailed with promiseResult := .successful "true" }
        ⟨[("tok", "recv")]⟩ "prev" "recv" "tok" ∧
     nft_resolve_transfer trivialNftHook
        { envOneFailed with promiseResult := .failed }
        ⟨[("tok", "recv")]⟩ "prev" "recv" "tok" =
      nft_resolve_transfer trivialNftHook
        { envOneFailed with promiseResult := .successful "true" }
        ⟨[("tok", "recv")]⟩ "prev" "recv" "tok") :=
  ⟨rfl, resolver_ambiguous_treated_as_reject trivialNftHook envOneFailed
    ⟨[("tok", "recv")]⟩ "prev" "recv" "tok" "maybe" rfl⟩

/-- C7: when the resolver reverts and the re-validation passes, the
compensating move is observationally an ordinary transfer from the
receiver back to the original owner: the resolver's state and events
coincide with those of the hook-wrapped normal transfer on the reversal
descriptor, and a transfer event for the corrective move is emitted. -/
theorem resolver_reversal_is_ordinary_transfer {HS : Type} (hook : NftHook HS)
    (env : NftEnv) (s : NftState) (p r : AccountId) (tid : TokenId)
    (hcount : env.promiseResultsCount = 1)
    (hfail : env.promiseResult = PromiseResult.failed)
    (hcheck : check_transfer s [tid] r r p = Except.ok ()) :
    nft_resolve_transfer hook env s p r tid =
      Except.ok ((nft_transfer_exec hook s (reversalDescriptor p r tid)).1,
        (nft_transfer_exec hook s (reversalDescriptor p r tid)).2.1, false) ∧
    (nft_transfer_exec hook s (reversalDescriptor p r tid)).2.1 =
      [NftEvent.nftTransfer r p tid none] := by
  constructor
  · simp [nft_resolve_transfer, nft_transfer_exec, reversalDescriptor,
      controller_transfer, transfer_unchecked, hcount, hfail, hcheck]
  · simp [nft_transfer_exec, reversalDescriptor, controller_transfer,
      transfer_unchecked, hcheck]

/-- Witness for C7: with the token held by the receiver, a failed
receiver call makes the resolver perform the reversal as an ordinary
transfer back to the original owner, emitting the corrective event. -/
theorem resolver_reversal_is_ordinary_transfer_witness :
    envOneFailed.promiseResultsCount = 1 ∧
    check_transfer ⟨[("tok", "recv")]⟩ ["tok"] "recv" "recv" "prev" = Except.ok () ∧
    (nft_resolve_transfer trivialNftHook envOneFailed ⟨[("tok", "recv")]⟩
        "prev" "recv" "tok" =
      Except.ok ((nft_transfer_exec trivialNftHook ⟨[("tok", "recv")]⟩
          (reversalDescriptor "prev" "recv" "tok")).1,
        (nft_transfer_exec trivialNftHook ⟨[("tok", "recv")]⟩
          (reversalDescriptor "prev" "recv" "tok")).2.1, false) ∧
     (nft_transfer_exec trivialNftHook ⟨[("tok", "recv")]⟩
        (reversalDescriptor "prev" "recv" "tok")).2.1 =
      [NftEvent.nftTransfer "recv" "prev" "tok" none]) :=
  ⟨rfl, rfl, resolver_reversal_is_ordinary_transfer trivialNftHook envOneFailed
    ⟨[("tok", "recv")]⟩ "prev" "recv" "tok" rfl rfl rfl⟩

/-- If the resolver's re-validation fails, no branch of the generated
code mutates the ledger and the resolver returns `true` (no reversal
performed), whatever the receiver outcome was. -/
theorem resolve_no_reversal_of_check_error {HS : Type} (hook : NftHook HS)
    (env : NftEnv) (s : NftState) (p r : AccountId) (tid : TokenId)
    (e : NftTransferError)
    (hcount : env.promiseResultsCount = 1)
    (hcheck : check_transfer s [tid] r r p = Except.error e) :
    nft_resolve_transfer hook env s p r tid = Except.ok (s, [], true) := by
  simp [nft_resolve_transfer, hcount, hcheck]

/-- C8: when the reject path's re-validation fails the resolver performs
no ledger mutation and reports that no reversal was performed; in
particular, once a transfer is settled (the token is back with the
original owner, who differs from the receiver), a second resolver-style
inspection mutates nothing. -/
theorem resolver_settled_no_mutation {HS : Type} (hook : NftHook HS)
    (env : NftEnv) (s : NftState) (p r : AccountId) (tid : TokenId)
    (e : NftTransferError)
    (hcount : env.promiseResultsCount = 1)
    (hcheck : check_transfer s [tid] r r p = Except.error e) :
    nft_resolve_transfer hook env s p r tid = Except.ok (s, [], true) ∧
    ∀ s1 : NftState, token_owner s1 tid = some p → p ≠ r →
      nft_resolve_transfer hook env s1 p r tid = Except.ok (s1, [], true) := by
  constructor
  · exact resolve_no_reversal_of_check_error hook env s p r tid e hcount hcheck
  · intro s1 howner hne
    apply resolve_no_reversal_of_check_error hook env s1 p r tid
      (NftTransferError.senderIsNotOwner tid r) hcount
    simp [check_transfer, howner, hne]

/-- Witness for C8: with the token held by a third account, the
re-validation fails and the resolver returns unchanged state; with the
token already back at the original owner (a settled transfer), a second
inspection also mutates nothing. -/
theorem resolver_settled_no_mutation_witness :
    check_transfer ⟨[("tok", "carol")]⟩ ["tok"] "recv" "recv" "prev" =
      Except.error (NftTransferError.senderIsNotOwner "tok" "recv") ∧
    nft_resolve_transfer trivialNftHook envOneFailed ⟨[("tok", "carol")]⟩
      "prev" "recv" "tok" = Except.ok (⟨[("tok", "carol")]⟩, [], true) ∧
    nft_resolve_transfer trivialNftHook envOneFailed ⟨[("tok", "prev")]⟩
      "prev" "recv" "tok" = Except.ok (⟨[("tok", "prev")]⟩, [], true) :=
  ⟨rfl,
   (resolver_settled_no_mutation trivialNftHook envOneFailed ⟨[("tok", "carol")]⟩
     "prev" "recv" "tok" (NftTransferError.senderIsNotOwner "tok" "recv")
     rfl rfl).1,
   (resolver_settled_no_mutation trivialNftHook envOneFailed ⟨[("tok", "carol")]⟩
     "prev" "recv" "tok" (NftTransferError.senderIsNotOwner "tok" "recv")
     rfl rfl).2 ⟨[("tok", "prev")]⟩ rfl (by decide)⟩

/-- C9: the generated `nft_transfer_call` checks the execution budget
before the optimistic mutation: with the earlier guards passing and
prepaid gas below `GAS_FOR_NFT_TRANSFER_CALL`, the call aborts with the
insufficient-gas message and the observable ledger state is unchanged. -/
theorem transfer_call_budget_check_eager {HS : Type} (hook : NftHook HS)
    (env : NftEnv) (s : NftState) (receiverId : AccountId) (tid : TokenId)
    (memo : Option String) (msg : String)
    (hdep : env.attachedDeposit = 1)
    (hgas : env.prepaidGas < GAS_FOR_NFT_TRANSFER_CALL) :
    nft_transfer_call hook env s receiverId tid none memo msg =
      Except.error INSUFFICIENT_GAS_MESSAGE ∧
    resultState s (nft_transfer_call hook env s receiverId tid none memo msg) = s := by
  have h1 : nft_transfer_call hook env s receiverId tid none memo msg =
      Except.error INSUFFICIENT_GAS_MESSAGE := by
    simp [nft_transfer_call, hdep, Nat.not_le.mpr hgas]
  exact ⟨h1, by rw [h1]; rfl⟩

/-- Witness for C9: with zero prepaid gas, a transfer-call on a ledger
where `alice` owns the token aborts with the insufficient-gas message
and mutates nothing. -/
theorem transfer_call_budget_check_eager_witness :
    envLowGas.attachedDeposit = 1 ∧
    envLowGas.prepaidGas < GAS_FOR_NFT_TRANSFER_CALL ∧
    (nft_transfer_call trivialNftHook envLowGas ⟨[("tok", "alice")]⟩
        "bob" "tok" none none "hello" = Except.error INSUFFICIENT_GAS_MESSAGE ∧
     resultState ⟨[("tok", "alice")]⟩
        (nft_transfer_call trivialNftHook envLowGas ⟨[("tok", "alice")]⟩
          "bob" "tok" none none "hello") = ⟨[("tok", "alice")]⟩) :=
  ⟨rfl, by decide,
   transfer_call_budget_check_eager trivialNftHook envLowGas ⟨[("tok", "alice")]⟩
     "bob" "tok" none "hello" rfl (by decide)⟩

/-- C10: the generated `nft_resolve_transfer` aborts (`require!`) unless
exactly one promise result is available; with any other count it fails
before touching the ledger, so the observable state is unchanged. -/
theorem resolve_transfer_requires_one_promise {HS : Type} (hook : NftHook HS)
    (env : NftEnv) (s : NftState) (p r : AccountId) (tid : TokenId)
    (h : env.promiseResultsCount ≠ 1) :
    nft_resolve_transfer hook env s p r tid =
      Except.error "Requires exactly one promise result." ∧
    resultState s (nft_resolve_transfer hook env s p r tid) = s := by
  have h1 : nft_resolve_transfer hook env s p r tid =
      Except.error "Requires exactly one promise result." := by
    simp [nft_resolve_transfer, h]
  exact ⟨h1, by rw [h1]; rfl⟩

/-- Witness for C10: with zero promise results the resolver aborts and
the ledger is untouched. -/
theorem resolve_transfer_requires_one_promise_witness :
    envZeroPromises.promiseResultsCount ≠ 1 ∧
    (nft_resolve_transfer trivialNftHook envZeroPromises ⟨[("tok", "recv")]⟩
        "prev" "recv" "tok" =
      Except.error "Requires exactly one promise result." ∧
     resultState ⟨[("tok", "recv")]⟩
        (nft_resolve_transfer trivialNftHook envZeroPromises ⟨[("tok", "recv")]⟩
          "prev" "recv" "tok") = ⟨[("tok", "recv")]⟩) :=
  ⟨by decide,
   resolve_transfer_requires_one_promise trivialNftHook envZeroPromises
     ⟨[("tok", "recv")]⟩ "prev" "recv" "tok" (by decide)⟩

end Nep171
